import Mathlib

/-!
Verification of `devsim.py`, a Modbus/TCP device simulator.

The script configures the pymodbus 2.x datastore — `ModbusSequentialDataBlock`,
`ModbusSlaveContext`, `ModbusServerContext` — and spawns a background thread
(`sync`) that periodically overwrites input-register values with random numbers.
This development shallowly embeds:

* the pymodbus datastore semantics as exercised by the script (Python list
  slice assignment for `setValues`, list slicing for `getValues`, the
  `validate` range check, the one-based address adjustment performed when
  `zero_mode` is False, and the function-code-to-bank mapping);
* Python object identity: the script passes one shared block object as all
  four banks of all three slave contexts, so blocks live in a heap of block
  objects and contexts hold references (heap indices) into it;
* the refresher loop body of `sync` (devsim.py lines 45-52), with the PRNG
  modelled as a stream of naturals consumed by `random.randint(0, 1000)`;
* the request dispatch performed by the pymodbus TCP server on behalf of the
  script (slave lookup, count validation, range validation, read or write,
  and Modbus exception responses).
-/

/-- Embeds pymodbus `ModbusSequentialDataBlock`: a base address and a Python
list of register values.  The script constructs one with
`ModbusSequentialDataBlock(0, [0]*10)` (devsim.py line 72). -/
structure ModbusSequentialDataBlock where
  address : Nat
  values : List Nat
deriving DecidableEq

/-- Embeds `ModbusSequentialDataBlock.getValues`: Python
`self.values[start:start+count]` with `start = address - self.address`.
Python slicing clamps out-of-range indices, as `List.drop`/`List.take` do.
All addresses used by the script are at or above the base, so truncated
natural subtraction agrees with Python's integer subtraction. -/
def ModbusSequentialDataBlock.getValues (db : ModbusSequentialDataBlock)
    (address count : Nat) : List Nat :=
  (db.values.drop (address - db.address)).take count

/-- Embeds `ModbusSequentialDataBlock.setValues`: Python slice assignment
`self.values[start:start+len(values)] = values`, which overwrites in range and
grows the list when the slice extends past its end. -/
def ModbusSequentialDataBlock.setValues (db : ModbusSequentialDataBlock)
    (address : Nat) (vs : List Nat) : ModbusSequentialDataBlock :=
  let start := address - db.address
  { db with
    values := db.values.take start ++ vs ++ db.values.drop (start + vs.length) }

/-- Embeds `ModbusSequentialDataBlock.validate`:
`self.address <= address` and `address + count <= self.address + len(self.values)`. -/
def ModbusSequentialDataBlock.validate (db : ModbusSequentialDataBlock)
    (address count : Nat) : Bool :=
  decide (db.address ≤ address) && decide (address + count ≤ db.address + db.values.length)

/-- The four register banks of a slave context, keyed as in pymodbus
`IModbusSlaveContext` (discrete inputs, coils, holding, input). -/
inductive BankKey
  | d
  | c
  | h
  | i
deriving DecidableEq

/-- Embeds the pymodbus function-code-to-bank mapping `__fx_mapper`:
2 reads discrete inputs; 4 reads input registers; 3, 6, 16, 22, 23 address
holding registers; 1, 5, 15 address coils. -/
def fxDecode (fx : Nat) : Option BankKey :=
  if fx = 2 then some .d
  else if fx = 4 then some .i
  else if fx = 3 ∨ fx = 6 ∨ fx = 16 ∨ fx = 22 ∨ fx = 23 then some .h
  else if fx = 1 ∨ fx = 5 ∨ fx = 15 then some .c
  else none

/-- Embeds pymodbus `ModbusSlaveContext`.  In Python the four banks are
object references; the script passes the same block object for all four
(`di=block, co=block, hr=block, ir=block`, devsim.py lines 74-76), so banks
are modelled as indices into a heap of blocks.  `zero_mode` defaults to
False in pymodbus, and the script does not override it. -/
structure ModbusSlaveContext where
  di : Nat
  co : Nat
  hr : Nat
  ir : Nat
  zero_mode : Bool
deriving DecidableEq

/-- The bank reference selected by a bank key (`self.store[...]`). -/
def ModbusSlaveContext.bankRef (sc : ModbusSlaveContext) : BankKey → Nat
  | .d => sc.di
  | .c => sc.co
  | .h => sc.hr
  | .i => sc.ir

/-- Embeds the address adjustment in `ModbusSlaveContext.getValues` /
`setValues` / `validate`: `if not self.zero_mode: address = address + 1`. -/
def ModbusSlaveContext.adjust (sc : ModbusSlaveContext) (address : Nat) : Nat :=
  if sc.zero_mode then address else address + 1

/-- The heap of block objects; references are list indices. -/
abbrev Heap := List ModbusSequentialDataBlock

/-- Dereference a block.  The script's heap holds exactly one block and every
reference in it is 0, so the default is never reached. -/
def heapGet (heap : Heap) (r : Nat) : ModbusSequentialDataBlock :=
  List.getD heap r ⟨0, []⟩

/-- Overwrite the block object at a reference (a Python in-place mutation). -/
def heapSet (heap : Heap) (r : Nat) (db : ModbusSequentialDataBlock) : Heap :=
  List.set heap r db

/-- Embeds `ModbusSlaveContext.getValues`: adjust the address for zero_mode,
select the bank for the function code, and read the referenced block. -/
def ModbusSlaveContext.getValues (sc : ModbusSlaveContext) (heap : Heap)
    (fx address count : Nat) : Option (List Nat) :=
  (fxDecode fx).map fun k =>
    (heapGet heap (sc.bankRef k)).getValues (sc.adjust address) count

/-- Embeds `ModbusSlaveContext.setValues`: mutates the referenced block object
in place, returning the updated heap. -/
def ModbusSlaveContext.setValues (sc : ModbusSlaveContext) (heap : Heap)
    (fx address : Nat) (vs : List Nat) : Option Heap :=
  (fxDecode fx).map fun k =>
    heapSet heap (sc.bankRef k)
      ((heapGet heap (sc.bankRef k)).setValues (sc.adjust address) vs)

/-- Embeds `ModbusSlaveContext.validate`. -/
def ModbusSlaveContext.validate (sc : ModbusSlaveContext) (heap : Heap)
    (fx address count : Nat) : Option Bool :=
  (fxDecode fx).map fun k =>
    (heapGet heap (sc.bankRef k)).validate (sc.adjust address) count

/-- Embeds pymodbus `ModbusServerContext`: a mapping from unit id to slave
context and the `single` flag chosen at construction. -/
structure ModbusServerContext where
  slaves : List (Nat × ModbusSlaveContext)
  single : Bool
deriving DecidableEq

/-- Embeds `ModbusServerContext.__getitem__`: in single mode every unit id
resolves to the single entry (stored under the pymodbus default unit id 0);
otherwise the unit id is looked up, and a missing id raises
`NoSuchSlaveException` (here: `none`). -/
def lookupSlave (ctx : ModbusServerContext) (unitId : Nat) : Option ModbusSlaveContext :=
  let uid := if ctx.single then 0 else unitId
  (ctx.slaves.find? fun p => p.1 == uid).map Prod.snd

/-- The mutable server state: the heap of block objects plus the (immutable
after construction) server context. -/
structure ServerState where
  heap : Heap
  context : ModbusServerContext
deriving DecidableEq

/-- `context[slave_id].getValues(fx, address, count)` at the server level. -/
def ctxGetValues (st : ServerState) (unitId fx address count : Nat) :
    Option (List Nat) :=
  (lookupSlave st.context unitId).bind fun sc =>
    sc.getValues st.heap fx address count

/-- `context[slave_id].setValues(fx, address, values)` at the server level:
`none` when the unit id or function code is unknown. -/
def ctxSetValues (st : ServerState) (unitId fx address : Nat) (vs : List Nat) :
    Option ServerState :=
  (lookupSlave st.context unitId).bind fun sc =>
    (sc.setValues st.heap fx address vs).map fun h => { st with heap := h }

/-! ### The script's configuration (devsim.py lines 72-82) -/

/-- `block = ModbusSequentialDataBlock(0, [0]*10)` (line 72). -/
def devsimBlock : ModbusSequentialDataBlock :=
  ⟨0, List.replicate 10 0⟩

/-- `ModbusSlaveContext(di=block, co=block, hr=block, ir=block)`: all four
banks reference the single block object (heap index 0); `zero_mode` is left
at its pymodbus default False. -/
def devsimSlave : ModbusSlaveContext :=
  ⟨0, 0, 0, 0, false⟩

/-- `context = ModbusServerContext(slaves={1: ..., 2: ..., 3: ...}, single=False)`
(lines 73-78).  All three unit ids are given the same shared-block slave
context. -/
def devsimContext : ModbusServerContext :=
  ⟨[(1, devsimSlave), (2, devsimSlave), (3, devsimSlave)], false⟩

/-! ### The refresher thread `sync` (devsim.py lines 45-52) -/

/-- Models `random.randint(0, 1000)`: one draw from the PRNG stream, reduced
into the inclusive range 0..1000. -/
def randint1000 (rng : Nat → Nat) (k : Nat) : Nat :=
  rng k % 1001

/-- `values = [random.randint(0, 1000) for i in range(10)]` (line 49), with
the tick's draws taken at stream positions k..k+9. -/
def tickValues (rng : Nat → Nat) (k : Nat) : List Nat :=
  (List.range 10).map fun i => randint1000 rng (k + i)

/-- `time.sleep(0.1)` (line 52): the pause between ticks, in seconds. -/
def syncSleepSec : ℚ := 1 / 10

/-- State of the `sync` thread: the server state it mutates plus the number
of PRNG draws consumed so far. -/
structure SyncState where
  server : ServerState
  draws : Nat
deriving DecidableEq

/-- One iteration of `sync`'s loop body (lines 49-51): generate one 10-value
sequence, then `context[slave_id].setValues(4, 0, values)` for slave ids
1, 2, 3.  `none` would arise only if a slave lookup failed, which never
happens for the script's context. -/
def syncTick (rng : Nat → Nat) (s : SyncState) : Option SyncState :=
  let values := tickValues rng s.draws
  (ctxSetValues s.server 1 4 0 values).bind fun st1 =>
    (ctxSetValues st1 2 4 0 values).bind fun st2 =>
      (ctxSetValues st2 3 4 0 values).map fun st3 =>
        ⟨st3, s.draws + 10⟩

/-- The state the script starts the refresher in: the freshly constructed
context over the single ten-zero block; no PRNG draws consumed yet. -/
def devsimState0 : SyncState :=
  ⟨⟨[devsimBlock], devsimContext⟩, 0⟩

/-- `sync`'s state after n loop iterations from the script's initial state. -/
def syncTicks (rng : Nat → Nat) : Nat → Option SyncState
  | 0 => some devsimState0
  | n + 1 => (syncTicks rng n).bind (syncTick rng)

/-- The guard of `sync`'s loop (line 48) is literally `while True`: it is the
constant true and consults no cancellation input.  A hypothetical
per-iteration cancellation signal is passed in so that theorems can state
that the guard ignores it. -/
def syncLoopGuard (_cancelRequested : Bool) : Bool :=
  true

/-- Whether `sync`'s loop has exited within n iterations, given the
cancellation signal that would be observed at each iteration if the guard
consulted it. -/
def syncExitsWithin (cancel : Nat → Bool) (n : Nat) : Bool :=
  (List.range n).any fun k => !(syncLoopGuard (cancel k))

/-- `t.daemon = True` (line 81): the refresher thread is a daemon thread,
killed by the runtime when the process exits. -/
def sync_thread_daemon : Bool :=
  true

/-! ### Request dispatch -/

/-- A decoded Modbus request: unit id, function code, starting address,
quantity, and (for write requests) the value payload. -/
structure Request where
  unitId : Nat
  fx : Nat
  address : Nat
  count : Nat
  values : List Nat
deriving DecidableEq

/-- A Modbus response PDU: function code plus payload bytes.  For exception
responses the function code has bit 0x80 set and the payload is the single
exception-code byte. -/
structure Response where
  functionCode : Nat
  payload : List Nat
deriving DecidableEq

/-- Payload of a successful register-read response: byte count followed by
the big-endian bytes of each 16-bit value. -/
def encodeRegisterPayload (vs : List Nat) : List Nat :=
  2 * vs.length :: vs.flatMap fun v => [v / 256 % 256, v % 256]

/-- Modelled from the spec: the RequestDispatcher.  The dispatch code the
script relies on lives in the pymodbus server, not in this repository's
sources, so it is reconstructed from the spec: resolve the unit id via the
slave table, answering exception code 11 (gateway target failed to respond)
when it is unknown; validate the quantity (exception code 3) and the address
range (exception code 2); then read (function codes 3 and 4) or write
(function code 16) the resolved store; any other function code is answered
with exception code 1 (illegal function).  Exception responses set bit 0x80
of the function code and carry the single exception-code byte. -/
def dispatch (st : ServerState) (r : Request) : Response × ServerState :=
  match lookupSlave st.context r.unitId with
  | none => (⟨r.fx ||| 128, [11]⟩, st)
  | some sc =>
    if r.fx = 3 ∨ r.fx = 4 then
      if r.count < 1 ∨ 125 < r.count then (⟨r.fx ||| 128, [3]⟩, st)
      else if (sc.validate st.heap r.fx r.address r.count).getD false then
        (⟨r.fx, encodeRegisterPayload
            ((sc.getValues st.heap r.fx r.address r.count).getD [])⟩, st)
      else (⟨r.fx ||| 128, [2]⟩, st)
    else if r.fx = 16 then
      if r.count < 1 ∨ 123 < r.count ∨ r.values.length ≠ r.count then
        (⟨r.fx ||| 128, [3]⟩, st)
      else if (sc.validate st.heap r.fx r.address r.count).getD false then
        (⟨r.fx, [r.address / 256 % 256, r.address % 256,
                 r.count / 256 % 256, r.count % 256]⟩,
         { st with heap := (sc.setValues st.heap r.fx r.address r.values).getD st.heap })
      else (⟨r.fx ||| 128, [2]⟩, st)
    else (⟨r.fx ||| 128, [1]⟩, st)

/-! ### Helper lemmas -/

theorem tickValues_length (rng : Nat → Nat) (k : Nat) :
    (tickValues rng k).length = 10 := by
  simp [tickValues]

theorem tickValues_le (rng : Nat → Nat) (k : Nat) :
    ∀ v ∈ tickValues rng k, v ≤ 1000 := by
  intro v hv
  simp only [tickValues, List.mem_map] at hv
  obtain ⟨i, -, rfl⟩ := hv
  exact Nat.lt_succ_iff.mp (Nat.mod_lt _ (by norm_num))

/-- Writing at block address 1 of a base-0 block with a nonempty value list
keeps the head and splices the new values in at index 1. -/
theorem dbSet_cons (a : Nat) (t vs : List Nat) :
    ModbusSequentialDataBlock.setValues ⟨0, a :: t⟩ 1 vs =
      ⟨0, a :: (vs ++ t.drop vs.length)⟩ := by
  have h2 : (a :: t).drop (1 + vs.length) = t.drop vs.length := by
    rw [Nat.add_comm]; rfl
  simp [ModbusSequentialDataBlock.setValues, h2]

theorem lookupSlave_devsim (uid : Nat) (huid : uid ∈ ([1, 2, 3] : List Nat)) :
    lookupSlave devsimContext uid = some devsimSlave := by
  fin_cases huid <;> rfl

theorem lookupSlave_devsim_none (uid : Nat)
    (huid : uid ∉ ([1, 2, 3] : List Nat)) :
    lookupSlave devsimContext uid = none := by
  simp only [List.mem_cons, List.not_mem_nil, or_false, not_or] at huid
  obtain ⟨h1, h2, h3⟩ := huid
  have e1 : (1 == uid) = false := beq_eq_false_iff_ne.mpr (Ne.symm h1)
  have e2 : (2 == uid) = false := beq_eq_false_iff_ne.mpr (Ne.symm h2)
  have e3 : (3 == uid) = false := beq_eq_false_iff_ne.mpr (Ne.symm h3)
  simp [lookupSlave, devsimContext, List.find?, e1, e2, e3]

theorem ctxSet_devsim (db : ModbusSequentialDataBlock) (uid : Nat)
    (huid : uid ∈ ([1, 2, 3] : List Nat)) (vs : List Nat) :
    ctxSetValues ⟨[db], devsimContext⟩ uid 4 0 vs =
      some ⟨[db.setValues 1 vs], devsimContext⟩ := by
  simp [ctxSetValues, lookupSlave_devsim uid huid, devsimSlave,
    ModbusSlaveContext.setValues, fxDecode, ModbusSlaveContext.bankRef,
    ModbusSlaveContext.adjust, heapGet, heapSet]

theorem ctxGet_devsim (db : ModbusSequentialDataBlock) (uid : Nat)
    (huid : uid ∈ ([1, 2, 3] : List Nat)) (fx : Nat)
    (hfx : fx ∈ ([1, 2, 3, 4] : List Nat)) (a c : Nat) :
    ctxGetValues ⟨[db], devsimContext⟩ uid fx a c =
      some (db.getValues (a + 1) c) := by
  fin_cases hfx <;>
    simp [ctxGetValues, lookupSlave_devsim uid huid, devsimSlave,
      ModbusSlaveContext.getValues, fxDecode, ModbusSlaveContext.bankRef,
      ModbusSlaveContext.adjust, heapGet]

/-- One tick from any single-block devsim state: the three `setValues` calls
apply the same splice to the one shared block, and 10 PRNG draws are used. -/
theorem syncTick_devsim (rng : Nat → Nat) (db : ModbusSequentialDataBlock)
    (k : Nat) :
    syncTick rng ⟨⟨[db], devsimContext⟩, k⟩ =
      some ⟨⟨[((db.setValues 1 (tickValues rng k)).setValues 1
                (tickValues rng k)).setValues 1 (tickValues rng k)],
             devsimContext⟩, k + 10⟩ := by
  simp only [syncTick]
  rw [ctxSet_devsim db 1 (by decide)]
  simp only [Option.some_bind]
  rw [ctxSet_devsim _ 2 (by decide)]
  simp only [Option.some_bind]
  rw [ctxSet_devsim _ 3 (by decide)]
  rfl

/-- One tick from a devsim state whose block is `a :: t`: the head survives,
the tick's 10 values land at indices 1..10, and the rest (if any) keeps its
position. -/
theorem syncTick_cons (rng : Nat → Nat) (a : Nat) (t : List Nat) (k : Nat) :
    syncTick rng ⟨⟨[⟨0, a :: t⟩], devsimContext⟩, k⟩ =
      some ⟨⟨[⟨0, a :: (tickValues rng k ++ t.drop 10)⟩], devsimContext⟩,
            k + 10⟩ := by
  rw [syncTick_devsim]
  rw [dbSet_cons, dbSet_cons, dbSet_cons]
  rw [List.drop_left, List.drop_left, tickValues_length]

/-! ### Claims -/

/-- C1: each iteration of the refresher loop generates a sequence of exactly
10 pseudo-random values, each in 0..1000 (hence each a valid 16-bit register
value), and writes that sequence at offset 0 of the input-register bank
(function code 4) of every configured slave (unit ids 1, 2, 3); the loop's
fixed sleep between iterations is 0.1 s = 100 ms. -/
theorem c1_refresher_tick (rng : Nat → Nat) (db : ModbusSequentialDataBlock)
    (k : Nat) (haddr : db.address = 0) (hlen : 1 ≤ db.values.length) :
    (1000 : ℚ) * syncSleepSec = 100 ∧
    (tickValues rng k).length = 10 ∧
    (∀ v ∈ tickValues rng k, v ≤ 1000 ∧ v < 2 ^ 16) ∧
    ∃ s, syncTick rng ⟨⟨[db], devsimContext⟩, k⟩ = some s ∧
      ∀ uid ∈ ([1, 2, 3] : List Nat),
        ctxGetValues s.server uid 4 0 10 = some (tickValues rng k) := by
  obtain ⟨addr, values⟩ := db
  obtain rfl : addr = 0 := haddr
  match values, hlen with
  | a :: t, _ =>
    refine ⟨by norm_num [syncSleepSec], tickValues_length rng k, ?_, ?_⟩
    · intro v hv
      have hb := tickValues_le rng k v hv
      exact ⟨hb, lt_of_le_of_lt hb (by norm_num)⟩
    · refine ⟨_, syncTick_cons rng a t k, ?_⟩
      intro uid huid
      rw [ctxGet_devsim _ uid huid 4 (by decide)]
      have hget : (ModbusSequentialDataBlock.getValues
          ⟨0, a :: (tickValues rng k ++ t.drop 10)⟩ (0 + 1) 10) = tickValues rng k := by
        simp only [ModbusSequentialDataBlock.getValues, Nat.zero_add, Nat.sub_zero,
          List.drop_one, List.tail_cons]
        exact List.take_left' (tickValues_length rng k)
      rw [hget]

theorem c1_refresher_tick_witness :
    (1000 : ℚ) * syncSleepSec = 100 ∧
    (tickValues (fun n => n) 0).length = 10 ∧
    (∀ v ∈ tickValues (fun n => n) 0, v ≤ 1000 ∧ v < 2 ^ 16) ∧
    ∃ s, syncTick (fun n => n) ⟨⟨[devsimBlock], devsimContext⟩, 0⟩ = some s ∧
      ∀ uid ∈ ([1, 2, 3] : List Nat),
        ctxGetValues s.server uid 4 0 10 = some (tickValues (fun n => n) 0) :=
  c1_refresher_tick (fun n => n) devsimBlock 0 rfl (by decide)

/-- C2: from the script's initial store, whose single block holds ten zeros,
one refresher tick writes its 10-value sequence; a subsequent
read-input-registers request (function code 4, offset 0, count 10) against
any configured slave passes validation and returns exactly that sequence. -/
theorem c2_read_after_first_tick (rng : Nat → Nat) (uid : Nat)
    (huid : uid ∈ ([1, 2, 3] : List Nat)) :
    devsimState0.server.heap = [⟨0, List.replicate 10 0⟩] ∧
    ∃ s, syncTick rng devsimState0 = some s ∧
      ctxGetValues s.server uid 4 0 10 = some (tickValues rng 0) ∧
      dispatch s.server ⟨uid, 4, 0, 10, []⟩ =
        (⟨4, encodeRegisterPayload (tickValues rng 0)⟩, s.server) := by
  have hstep : syncTick rng devsimState0 =
      some ⟨⟨[⟨0, 0 :: tickValues rng 0⟩], devsimContext⟩, 10⟩ := by
    have h0 : devsimState0 =
        ⟨⟨[⟨0, (0 : Nat) :: List.replicate 9 0⟩], devsimContext⟩, 0⟩ := rfl
    rw [h0, syncTick_cons]
    have hd : (List.replicate 9 (0 : Nat)).drop 10 = [] := rfl
    rw [hd, List.append_nil]
  refine ⟨rfl, _, hstep, ?_, ?_⟩
  · rw [ctxGet_devsim _ uid huid 4 (by decide)]
    have hget : (ModbusSequentialDataBlock.getValues
        ⟨0, 0 :: tickValues rng 0⟩ (0 + 1) 10) = tickValues rng 0 := by
      simp only [ModbusSequentialDataBlock.getValues, Nat.zero_add, Nat.sub_zero,
        List.drop_one, List.tail_cons]
      rw [← tickValues_length rng 0]
      exact List.take_length _
    rw [hget]
  · have hval : devsimSlave.validate [⟨0, 0 :: tickValues rng 0⟩] 4 0 10 =
        some true := by
      simp [ModbusSlaveContext.validate, fxDecode, devsimSlave,
        ModbusSlaveContext.bankRef, ModbusSlaveContext.adjust, heapGet,
        ModbusSequentialDataBlock.validate, tickValues_length]
    have hget : devsimSlave.getValues [⟨0, 0 :: tickValues rng 0⟩] 4 0 10 =
        some (tickValues rng 0) := by
      simp only [ModbusSlaveContext.getValues, fxDecode, devsimSlave,
        ModbusSlaveContext.bankRef, ModbusSlaveContext.adjust, heapGet]
      norm_num [ModbusSequentialDataBlock.getValues, List.drop_one]
      exact le_of_eq (tickValues_length rng 0)
    simp only [dispatch, lookupSlave_devsim uid huid, hval, hget]
    norm_num

theorem c2_read_after_first_tick_witness :
    devsimState0.server.heap = [⟨0, List.replicate 10 0⟩] ∧
    ∃ s, syncTick (fun n => 3 * n + 5) devsimState0 = some s ∧
      ctxGetValues s.server 2 4 0 10 = some (tickValues (fun n => 3 * n + 5) 0) ∧
      dispatch s.server ⟨2, 4, 0, 10, []⟩ =
        (⟨4, encodeRegisterPayload (tickValues (fun n => 3 * n + 5) 0)⟩, s.server) :=
  c2_read_after_first_tick (fun n => 3 * n + 5) 2 (by decide)

/-- Invariant of the refresher after at least one tick: the single shared
block has base 0 and holds the head 0 the write skipped over (one-based
addressing) followed by the latest tick's 10 values; each tick consumes 10
PRNG draws. -/
theorem syncTicks_succ (rng : Nat → Nat) (n : Nat) :
    syncTicks rng (n + 1) =
      some ⟨⟨[⟨0, 0 :: tickValues rng (10 * n)⟩], devsimContext⟩,
            10 * (n + 1)⟩ := by
  induction n with
  | zero =>
    show (syncTicks rng 0).bind (syncTick rng) = _
    simp only [syncTicks, Option.some_bind]
    have h0 : devsimState0 =
        ⟨⟨[⟨0, (0 : Nat) :: List.replicate 9 0⟩], devsimContext⟩, 0⟩ := rfl
    rw [h0, syncTick_cons]
    have hd : (List.replicate 9 (0 : Nat)).drop 10 = [] := rfl
    rw [hd, List.append_nil]
  | succ m ih =>
    show (syncTicks rng (m + 1)).bind (syncTick rng) = _
    rw [ih, Option.some_bind, syncTick_cons]
    have hd : (tickValues rng (10 * m)).drop 10 = [] :=
      List.drop_eq_nil_of_le (le_of_eq (tickValues_length rng (10 * m)))
    rw [hd, List.append_nil]
    have harith : 10 * (m + 1) + 10 = 10 * (m + 1 + 1) := by ring
    rw [harith]

/-- C9: the slave contexts use one-based addressing (zero_mode False) over a
block with base address 0 and 10 initial zeros, so the refresher's write at
offset 0 lands at internal indices 1..10: the block grows from 10 to 11
entries on the first tick, and after every later tick its length stays 11,
internal index 0 still holds 0, and indices 1..10 hold the latest tick's
sequence. -/
theorem c9_one_based_growth (rng : Nat → Nat) (n : Nat) :
    (heapGet devsimState0.server.heap 0).values.length = 10 ∧
    ∃ s, syncTicks rng (n + 1) = some s ∧
      s.server.heap = [⟨0, 0 :: tickValues rng (10 * n)⟩] ∧
      (heapGet s.server.heap 0).values.length = 11 ∧
      (heapGet s.server.heap 0).values.head? = some 0 ∧
      (heapGet s.server.heap 0).values.drop 1 = tickValues rng (10 * n) := by
  refine ⟨by decide, _, syncTicks_succ rng n, rfl, ?_, rfl, ?_⟩
  · simp [heapGet, tickValues_length]
  · simp [heapGet]

theorem c9_one_based_growth_witness :
    (heapGet devsimState0.server.heap 0).values.length = 10 ∧
    ∃ s, syncTicks (fun n => n + 2) (4 + 1) = some s ∧
      s.server.heap = [⟨0, 0 :: tickValues (fun n => n + 2) (10 * 4)⟩] ∧
      (heapGet s.server.heap 0).values.length = 11 ∧
      (heapGet s.server.heap 0).values.head? = some 0 ∧
      (heapGet s.server.heap 0).values.drop 1 = tickValues (fun n => n + 2) (10 * 4) :=
  c9_one_based_growth (fun n => n + 2) 4

/-- C10: one tick consumes exactly 10 PRNG draws (one 10-value sequence, not
one per slave) and writes the same sequence through unit ids 1, 2, 3, so the
post-tick input-register reads through the three unit ids agree, and each
returns the tick's sequence at offset 0. -/
theorem c10_single_sequence_all_slaves (rng : Nat → Nat)
    (db : ModbusSequentialDataBlock) (k : Nat) (haddr : db.address = 0)
    (hlen : 1 ≤ db.values.length) :
    ∃ s, syncTick rng ⟨⟨[db], devsimContext⟩, k⟩ = some s ∧
      s.draws = k + 10 ∧
      (∀ a c, ctxGetValues s.server 1 4 a c = ctxGetValues s.server 2 4 a c ∧
              ctxGetValues s.server 2 4 a c = ctxGetValues s.server 3 4 a c) ∧
      ∀ uid ∈ ([1, 2, 3] : List Nat),
        ctxGetValues s.server uid 4 0 10 = some (tickValues rng k) := by
  obtain ⟨addr, values⟩ := db
  obtain rfl : addr = 0 := haddr
  match values, hlen with
  | a :: t, _ =>
    refine ⟨_, syncTick_cons rng a t k, rfl, ?_, ?_⟩
    · intro a' c'
      rw [ctxGet_devsim _ 1 (by decide) 4 (by decide),
        ctxGet_devsim _ 2 (by decide) 4 (by decide),
        ctxGet_devsim _ 3 (by decide) 4 (by decide)]
      exact ⟨rfl, rfl⟩
    · intro uid huid
      rw [ctxGet_devsim _ uid huid 4 (by decide)]
      have hget : (ModbusSequentialDataBlock.getValues
          ⟨0, a :: (tickValues rng k ++ t.drop 10)⟩ (0 + 1) 10) = tickValues rng k := by
        simp only [ModbusSequentialDataBlock.getValues, Nat.zero_add, Nat.sub_zero,
          List.drop_one, List.tail_cons]
        exact List.take_left' (tickValues_length rng k)
      rw [hget]

theorem c10_single_sequence_all_slaves_witness :
    ∃ s, syncTick (fun n => 7 * n) ⟨⟨[devsimBlock], devsimContext⟩, 0⟩ = some s ∧
      s.draws = 0 + 10 ∧
      (∀ a c, ctxGetValues s.server 1 4 a c = ctxGetValues s.server 2 4 a c ∧
              ctxGetValues s.server 2 4 a c = ctxGetValues s.server 3 4 a c) ∧
      ∀ uid ∈ ([1, 2, 3] : List Nat),
        ctxGetValues s.server uid 4 0 10 = some (tickValues (fun n => 7 * n) 0) :=
  c10_single_sequence_all_slaves (fun n => 7 * n) devsimBlock 0 rfl (by decide)

/-- Counterexample to C3: from the script's initial state, one refresher tick
(with every PRNG draw equal to 5) changes what a holding-register read
(function code 3, offset 0, count 10) returns — the discrete-input, coil and
holding banks are NOT left unchanged by a tick, because all four banks are
the same shared block object. -/
theorem c3_counterexample :
    (syncTick (fun _ => 5) devsimState0).isSome = true ∧
    ctxGetValues ((syncTick (fun _ => 5) devsimState0).getD devsimState0).server
        1 3 0 10 ≠ ctxGetValues devsimState0.server 1 3 0 10 := by
  decide

/-- C3 amended: the refresher writes only through function code 4 (input
registers), but the script passes the one block object as all four banks, so
after a tick the discrete-input (function code 2), coil (1) and
holding-register (3) banks read back exactly the same values as the
input-register bank — they are mutated identically rather than left
unchanged. -/
theorem c3_amended_banks_alias (rng : Nat → Nat)
    (db : ModbusSequentialDataBlock) (k : Nat) (uid : Nat)
    (huid : uid ∈ ([1, 2, 3] : List Nat)) (fx : Nat)
    (hfx : fx ∈ ([1, 2, 3] : List Nat)) (a c : Nat) :
    ∃ s, syncTick rng ⟨⟨[db], devsimContext⟩, k⟩ = some s ∧
      ctxGetValues s.server uid fx a c = ctxGetValues s.server uid 4 a c := by
  refine ⟨_, syncTick_devsim rng db k, ?_⟩
  have hfx4 : fx ∈ ([1, 2, 3, 4] : List Nat) := by fin_cases hfx <;> decide
  rw [ctxGet_devsim _ uid huid fx hfx4, ctxGet_devsim _ uid huid 4 (by decide)]

theorem c3_amended_banks_alias_witness :
    ∃ s, syncTick (fun n => n) ⟨⟨[devsimBlock], devsimContext⟩, 0⟩ = some s ∧
      ctxGetValues s.server 1 3 0 10 = ctxGetValues s.server 1 4 0 10 :=
  c3_amended_banks_alias (fun n => n) devsimBlock 0 1 (by decide) 3 (by decide) 0 10

/-- Counterexample to C4: the slave table maps unit ids 1, 2, 3 to slave
contexts that share the single block object, so a write applied through unit
id 1 changes what a read through unit id 2 observes. -/
theorem c4_counterexample :
    (ctxSetValues devsimState0.server 1 4 0 [7]).isSome = true ∧
    ctxGetValues ((ctxSetValues devsimState0.server 1 4 0 [7]).getD
        devsimState0.server) 2 4 0 1 ≠
      ctxGetValues devsimState0.server 2 4 0 1 := by
  decide

/-- C4 amended: the server context is constructed in multi mode
(single = False) with unit ids 1, 2, 3, but the three entries are the same
slave context over the one shared block, so every unit id resolves to the
same store and a write through any one unit id is observable through every
other. -/
theorem c4_amended_shared_store (i j : Nat)
    (hi : i ∈ ([1, 2, 3] : List Nat)) (hj : j ∈ ([1, 2, 3] : List Nat)) :
    devsimContext.single = false ∧
    devsimContext.slaves.map Prod.fst = [1, 2, 3] ∧
    lookupSlave devsimContext i = lookupSlave devsimContext j ∧
    ∀ st : ServerState, st.context = devsimContext →
      ∀ fx a c, ctxGetValues st i fx a c = ctxGetValues st j fx a c := by
  refine ⟨rfl, rfl, ?_, ?_⟩
  · rw [lookupSlave_devsim i hi, lookupSlave_devsim j hj]
  · intro st hst fx a c
    simp [ctxGetValues, hst, lookupSlave_devsim i hi, lookupSlave_devsim j hj]

theorem c4_amended_shared_store_witness :
    devsimContext.single = false ∧
    devsimContext.slaves.map Prod.fst = [1, 2, 3] ∧
    lookupSlave devsimContext 1 = lookupSlave devsimContext 3 ∧
    ∀ st : ServerState, st.context = devsimContext →
      ∀ fx a c, ctxGetValues st 1 fx a c = ctxGetValues st 3 fx a c :=
  c4_amended_shared_store 1 3 (by decide) (by decide)

/-- Counterexample to C5: the guard of `sync`'s loop is the constant True, so
even with the cancellation signal raised on every iteration the loop has not
exited after 100 iterations (10 seconds of ticks) — it does not observe any
shutdown signal, let alone terminate promptly on it. -/
theorem c5_counterexample :
    syncLoopGuard true = true ∧
    syncExitsWithin (fun _ => true) 100 = false := by
  decide

/-- C5 amended: each iteration's sleep is a bounded 0.1 s = 100 ms, but the
loop runs unconditionally (`while True`): its guard ignores any cancellation
signal and the loop never self-terminates, for any signal and any number of
iterations; the refresher stops only because it runs on a daemon thread
(`t.daemon = True`) that the runtime kills at process shutdown. -/
theorem c5_amended_no_cancellation_check (c : Bool) (cancel : Nat → Bool)
    (n : Nat) :
    syncLoopGuard c = true ∧
    syncExitsWithin cancel n = false ∧
    sync_thread_daemon = true ∧
    (1000 : ℚ) * syncSleepSec = 100 := by
  refine ⟨rfl, ?_, rfl, by norm_num [syncSleepSec]⟩
  simp [syncExitsWithin, syncLoopGuard]

/-- C6: a request whose unit id is not one of the configured slave ids
1, 2, 3 is answered with a Modbus exception response whose function code is
the request's function code OR 0x80 and whose single payload byte is
exception code 11, and the server state (hence every register store) is
untouched. -/
theorem c6_unknown_slave_exception (st : ServerState)
    (hctx : st.context = devsimContext) (r : Request)
    (h : r.unitId ∉ ([1, 2, 3] : List Nat)) :
    dispatch st r = (⟨r.fx ||| 128, [11]⟩, st) := by
  simp [dispatch, hctx, lookupSlave_devsim_none r.unitId h]

theorem c6_unknown_slave_exception_witness :
    dispatch devsimState0.server ⟨9, 3, 0, 10, []⟩ =
      (⟨3 ||| 128, [11]⟩, devsimState0.server) :=
  c6_unknown_slave_exception devsimState0.server rfl ⟨9, 3, 0, 10, []⟩ (by decide)

/-- C7: read-after-write round-trip on a block.  For every base address,
initial bank contents, value sequence and zero-based offset with
offset + count ≤ bank length (count being the length of the sequence),
writing the sequence at that offset and reading back the same range returns
exactly the written values. -/
theorem c7_write_read_round_trip (base : Nat) (init vs : List Nat)
    (offset : Nat) (h : offset + vs.length ≤ init.length) :
    (ModbusSequentialDataBlock.setValues ⟨base, init⟩ (base + offset)
        vs).getValues (base + offset) vs.length = vs := by
  have hst : base + offset - base = offset := by omega
  simp only [ModbusSequentialDataBlock.setValues,
    ModbusSequentialDataBlock.getValues, hst]
  have hlen : (init.take offset).length = offset := by
    rw [List.length_take]; omega
  rw [List.append_assoc, List.drop_left' hlen, List.take_left]

theorem c7_write_read_round_trip_witness :
    (ModbusSequentialDataBlock.setValues ⟨0, [1, 2, 3, 4]⟩ (0 + 1)
        [8, 9]).getValues (0 + 1) [8, 9].length = [8, 9] :=
  c7_write_read_round_trip 0 [1, 2, 3, 4] [8, 9] 1 (by decide)

/-- Counterexample to C8: on the script's ten-entry block (base 0), the
access at zero-based offset 1 with count 10 has offset + count = 11 > 10,
yet neither raw operation fails: the raw write succeeds and GROWS the bank
from 10 to 11 entries, and the raw read succeeds, returning the 9 available
values truncated. -/
theorem c8_counterexample :
    devsimBlock.values.length = 10 ∧
    (devsimBlock.setValues 1 (List.replicate 10 5)).values.length = 11 ∧
    devsimBlock.getValues 1 10 = List.replicate 9 0 := by
  decide

/-- C8 amended: the out-of-range check lives on the request path, not in the
raw block operations: a read request (function code 3 or 4, quantity within
1..125) whose one-based-adjusted range offset + count exceeds the bank
length fails `validate` and is answered with Modbus exception code 2
(illegal data address), leaving the server state unchanged; the raw block
operations themselves do not range-check (a raw out-of-range read truncates
and a raw out-of-range write grows the bank, as the counterexample shows). -/
theorem c8_amended_range_rejected_on_request_path (st : ServerState)
    (db : ModbusSequentialDataBlock) (hctx : st.context = devsimContext)
    (hheap : st.heap = [db]) (haddr : db.address = 0)
    (uid fx address count : Nat) (huid : uid ∈ ([1, 2, 3] : List Nat))
    (hfx : fx = 3 ∨ fx = 4) (hcount : 1 ≤ count ∧ count ≤ 125)
    (hrange : db.values.length < address + 1 + count) :
    dispatch st ⟨uid, fx, address, count, []⟩ = (⟨fx ||| 128, [2]⟩, st) := by
  have hv : devsimSlave.validate st.heap fx address count = some false := by
    rcases hfx with rfl | rfl <;>
      simp [ModbusSlaveContext.validate, fxDecode, devsimSlave,
        ModbusSlaveContext.bankRef, ModbusSlaveContext.adjust, heapGet, hheap,
        ModbusSequentialDataBlock.validate, haddr] <;>
      omega
  rcases hfx with rfl | rfl <;>
    simp [dispatch, hctx, lookupSlave_devsim uid huid, hv] <;>
    omega

theorem c8_amended_range_rejected_on_request_path_witness :
    dispatch devsimState0.server ⟨1, 4, 5, 100, []⟩ =
      (⟨4 ||| 128, [2]⟩, devsimState0.server) :=
  c8_amended_range_rejected_on_request_path devsimState0.server devsimBlock rfl
    rfl rfl 1 4 5 100 (by decide) (Or.inr rfl) (by decide) (by decide)
